import Mathlib

/-!
Verification of the provider-fallback chat loop of `1_foundations/app.py`
(resume-chatbot).

The Python module is embedded shallowly:

* JSON values produced by the tools are the inductive `Json`; `jsonDumps`
  mirrors `json.dumps` with its default `", "` / `": "` separators.
* The process environment is a function `Env := String → Option String`
  (`os.getenv`).
* A provider attempt (`client.chat.completions.create` inside the
  `try`/`except`) is an opaque behaviour parameter
  `Attempt := Provider → String → List ChatMsg → Option Resp`:
  `some r` models a response, `none` models any raised exception
  (the code catches every `Exception` and falls through).
* The notification transport (`requests.post`) is an opaque behaviour
  parameter `postRaises : String → Bool`: `true` means the POST raises.
* Python exceptions that the code does NOT catch are modelled with
  `Except String`: an `Except.error` is an exception propagating to the
  caller.
-/

namespace ResumeChatbot

/-- JSON-compatible values, as produced by the tool implementations and
consumed by `json.dumps`. -/
inductive Json where
  | null : Json
  | bool (b : Bool) : Json
  | str (s : String) : Json
  | arr (elems : List Json) : Json
  | obj (fields : List (String × Json)) : Json

/-- Escaping of `"` and `\` inside a JSON string literal, as `json.dumps`
performs it. -/
def jsonEscape (s : String) : String :=
  ⟨s.data.foldr
    (fun c acc =>
      if c = '\\' then '\\' :: '\\' :: acc
      else if c = '\"' then '\\' :: '\"' :: acc
      else c :: acc) []⟩

mutual

/-- `json.dumps` with the default separators (`", "` between items,
`": "` after a key). -/
def jsonDumps : Json → String
  | Json.null => "null"
  | Json.bool b => if b then "true" else "false"
  | Json.str s => "\"" ++ jsonEscape s ++ "\""
  | Json.arr xs => "[" ++ jsonDumpsElems xs ++ "]"
  | Json.obj fs => "\x7b" ++ jsonDumpsFields fs ++ "\x7d"

/-- Serialization of the element list of a JSON array. -/
def jsonDumpsElems : List Json → String
  | [] => ""
  | [x] => jsonDumps x
  | x :: y :: xs => jsonDumps x ++ ", " ++ jsonDumpsElems (y :: xs)

/-- Serialization of the field list of a JSON object. -/
def jsonDumpsFields : List (String × Json) → String
  | [] => ""
  | [(k, v)] => "\"" ++ jsonEscape k ++ "\": " ++ jsonDumps v
  | (k, v) :: f :: fs =>
      "\"" ++ jsonEscape k ++ "\": " ++ jsonDumps v ++ ", "
        ++ jsonDumpsFields (f :: fs)

end

/-- The process environment: `os.getenv`.  `none` is an unset variable. -/
def Env := String → Option String

/-- `OUT_OF_TOKENS_MESSAGE` of `app.py` (lines 12-17), the adjacent string
literals concatenated. -/
def OUT_OF_TOKENS_MESSAGE : String :=
  "We are currently unable to process your request because your token "
    ++ "allocation appears to be exhausted across all supported providers "
    ++ "(OpenAI, Groq, Gemini, and DeepSeek). Please review your usage "
    ++ "limits or update your billing details before trying again."

/-- `provider_env_map` of `get_external_llm_key`. -/
def provider_env_map : List (String × String) :=
  [("openai", "OPENAI_API_KEY"),
   ("groq", "GROQ_API_KEY"),
   ("gemini", "GEMINI_API_KEY"),
   ("deepseek", "DEEPSEEK_API_KEY")]

/-- The truthiness test `if api_key:` applied to the result of
`os.getenv`: an absent variable or an empty string is falsy. -/
def credTruthy : Option String → Bool
  | none => false
  | some s => !(s == "")

/-- `get_external_llm_key()` (app.py lines 20-49): first provider in
priority order whose environment variable holds a truthy value; raises
`RuntimeError(OUT_OF_TOKENS_MESSAGE)` — modelled as `Except.error` —
when none does.  It reads only the environment. -/
def get_external_llm_key (env : Env) : Except String (String × String) :=
  go provider_env_map
where
  /-- The `for provider, env_var in provider_env_map:` loop. -/
  go : List (String × String) → Except String (String × String)
    | [] => Except.error OUT_OF_TOKENS_MESSAGE
    | (provider, envVar) :: rest =>
      match env envVar with
      | some apiKey => if apiKey == "" then go rest else Except.ok (provider, apiKey)
      | none => go rest

/-- One outbound Pushover POST: the `data` dict of `push` (app.py lines
52-60). -/
structure PushMsg where
  token : Option String
  user : Option String
  message : String
deriving DecidableEq

/-- `push(text)` (app.py lines 52-60): one `requests.post` with the
token/user environment slots and the message.  `postRaises text = true`
models the POST raising (network failure, etc.); `push` has no handler,
so the exception propagates.  On success the dispatched message is
returned so that theorems can speak about notifications. -/
def push (env : Env) (postRaises : String → Bool) (text : String) :
    Except String (List PushMsg) :=
  if postRaises text then Except.error "requests exception in push"
  else Except.ok [⟨env "PUSHOVER_TOKEN", env "PUSHOVER_USER", text⟩]

/-- `record_user_details(email, name="Name not provided",
notes="not provided")` (app.py lines 63-65).  The f-string text of the
notification, then `{"recorded": "ok"}`. -/
def record_user_details (env : Env) (postRaises : String → Bool)
    (email : String) (name : String := "Name not provided")
    (notes : String := "not provided") :
    Except String (Json × List PushMsg) :=
  match push env postRaises
      ("Recording " ++ name ++ " with email " ++ email ++ " and notes " ++ notes) with
  | Except.error e => Except.error e
  | Except.ok sent => Except.ok (Json.obj [("recorded", Json.str "ok")], sent)

/-- `record_unknown_question(question)` (app.py lines 67-69). -/
def record_unknown_question (env : Env) (postRaises : String → Bool)
    (question : String) : Except String (Json × List PushMsg) :=
  match push env postRaises ("Recording " ++ question) with
  | Except.error e => Except.error e
  | Except.ok sent => Except.ok (Json.obj [("recorded", Json.str "ok")], sent)

/-- Parsed keyword arguments of a tool call (`json.loads` of
`tool_call.function.arguments`).  The advertised schemas declare every
parameter as a string, so argument values are modelled as strings. -/
def KwArgs := List (String × String)

/-- First value bound to a key, as a Python dict lookup. -/
def kwLookup (args : List (String × String)) (k : String) : Option String :=
  match args.find? (fun kv => kv.1 == k) with
  | some kv => some kv.2
  | none => none

/-- Python keyword application `record_user_details(**arguments)`:
a keyword outside `email`/`name`/`notes` or a missing required `email`
raises `TypeError`; otherwise absent optional keywords take their
declared defaults. -/
def callRecordUserDetails (env : Env) (postRaises : String → Bool)
    (args : List (String × String)) : Except String (Json × List PushMsg) :=
  if args.any (fun kv => !(kv.1 == "email") && !(kv.1 == "name") && !(kv.1 == "notes")) then
    Except.error "TypeError: record_user_details got an unexpected keyword argument"
  else
    match kwLookup args "email" with
    | none => Except.error "TypeError: record_user_details missing required argument: email"
    | some email =>
      record_user_details env postRaises email
        ((kwLookup args "name").getD "Name not provided")
        ((kwLookup args "notes").getD "not provided")

/-- Python keyword application `record_unknown_question(**arguments)`. -/
def callRecordUnknownQuestion (env : Env) (postRaises : String → Bool)
    (args : List (String × String)) : Except String (Json × List PushMsg) :=
  if args.any (fun kv => !(kv.1 == "question")) then
    Except.error "TypeError: record_unknown_question got an unexpected keyword argument"
  else
    match kwLookup args "question" with
    | none => Except.error "TypeError: record_unknown_question missing required argument: question"
    | some question => record_unknown_question env postRaises question

/-- Python keyword application `push(**arguments)`: the single required
parameter is `text`; `push` returns `None`. -/
def callPushKw (env : Env) (postRaises : String → Bool)
    (args : List (String × String)) : Except String (Json × List PushMsg) :=
  if args.any (fun kv => !(kv.1 == "text")) then
    Except.error "TypeError: push got an unexpected keyword argument"
  else
    match kwLookup args "text" with
    | none => Except.error "TypeError: push missing required argument: text"
    | some text =>
      match push env postRaises text with
      | Except.error e => Except.error e
      | Except.ok sent => Except.ok (Json.null, sent)

/-- `get_external_llm_key(**arguments)` invoked as a tool: it takes no
keyword arguments; with an empty dict it returns the `(provider, key)`
tuple (serialized as a JSON array) or propagates its `RuntimeError`. -/
def callGetExternalLlmKey (env : Env)
    (args : List (String × String)) : Except String (Json × List PushMsg) :=
  match args with
  | [] =>
    match get_external_llm_key env with
    | Except.ok (p, k) => Except.ok (Json.arr [Json.str p, Json.str k], [])
    | Except.error e => Except.error e
  | _ :: _ => Except.error "TypeError: get_external_llm_key got an unexpected keyword argument"

/-- A module-level binding of `app.py`, as seen by `globals().get`. -/
inductive PyBinding where
  /-- A callable binding; invoking it with parsed keyword arguments either
  returns a JSON-serializable value together with the notifications it
  dispatched, or raises. -/
  | callable (f : List (String × String) → Except String (Json × List PushMsg))
  /-- A binding that is not callable (constants, modules, instances):
  invoking it raises `TypeError`. -/
  | value

/-- Module-level bindings whose invocation behaviour no claim depends on
(imported classes and functions whose call always escapes the modelled
core): they resolve, and invoking them is modelled as raising. -/
def opaqueCallableNames : List String :=
  ["load_dotenv", "OpenAI", "PdfReader", "Me"]

/-- Non-callable module-level bindings of `app.py` (constants, imported
modules, module dunders, and — in the `__main__` run — the `me`
instance). -/
def valueBindingNames : List String :=
  ["OUT_OF_TOKENS_MESSAGE", "record_user_details_json",
   "record_unknown_question_json", "tools", "json", "os", "requests", "gr",
   "me", "__name__", "__doc__", "__package__", "__loader__", "__spec__",
   "__file__", "__builtins__", "__annotations__"]

/-- `globals().get(tool_name)` over the module namespace of `app.py`. -/
def globalsGet (env : Env) (postRaises : String → Bool) (nm : String) :
    Option PyBinding :=
  if nm == "record_user_details" then some (PyBinding.callable (callRecordUserDetails env postRaises))
  else if nm == "record_unknown_question" then some (PyBinding.callable (callRecordUnknownQuestion env postRaises))
  else if nm == "push" then some (PyBinding.callable (callPushKw env postRaises))
  else if nm == "get_external_llm_key" then some (PyBinding.callable (callGetExternalLlmKey env))
  else if opaqueCallableNames.contains nm then
    some (PyBinding.callable (fun _ => Except.error "exception escaping the modelled core"))
  else if valueBindingNames.contains nm then some PyBinding.value
  else none

/-- The dispatch line of `handle_tool_call`:
`tool = globals().get(tool_name); result = tool(**arguments) if tool else {}`.
An unresolved name yields the empty dict; a non-callable binding raises
`TypeError`; a callable either returns or raises. -/
def dispatchTool (env : Env) (postRaises : String → Bool) (nm : String)
    (args : List (String × String)) : Except String (Json × List PushMsg) :=
  match globalsGet env postRaises nm with
  | none => Except.ok (Json.obj [], [])
  | some PyBinding.value => Except.error "TypeError: object is not callable"
  | some (PyBinding.callable f) => f args

/-- One Tool Call Request emitted by a provider:
`tool_call.id`, `tool_call.function.name`, and the parsed
`tool_call.function.arguments`. -/
structure ToolCallReq where
  id : String
  fname : String
  arguments : List (String × String)
deriving DecidableEq

/-- A transcript message, tagged by role as in the OpenAI chat format. -/
inductive ChatMsg where
  | system (content : String)
  | user (content : String)
  | assistant (content : String) (tool_calls : List ToolCallReq)
  | tool (content : String) (tool_call_id : String)
deriving DecidableEq

/-- `Me.handle_tool_call(tool_calls)` (app.py lines 130-139): for each
request in order, dispatch through the module globals and append
`{"role": "tool", "content": json.dumps(result), "tool_call_id": id}`.
An exception raised by any invocation propagates, discarding the
partial `results` list. -/
def handle_tool_call (env : Env) (postRaises : String → Bool) :
    List ToolCallReq → Except String (List ChatMsg × List PushMsg)
  | [] => Except.ok ([], [])
  | tc :: rest =>
    match dispatchTool env postRaises tc.fname tc.arguments with
    | Except.error e => Except.error e
    | Except.ok (result, sent) =>
      match handle_tool_call env postRaises rest with
      | Except.error e => Except.error e
      | Except.ok (msgs, sentRest) =>
        Except.ok (ChatMsg.tool (jsonDumps result) tc.id :: msgs, sent ++ sentRest)

/-- One provider tuple of the fallback loop of `Me.chat` (app.py lines
162-167): name, credential environment variable, optional alternate
base URL, and model identifier. -/
structure Provider where
  name : String
  envVar : String
  baseUrl : Option String
  model : String
deriving DecidableEq

/-- The provider list of `Me.chat`, in its fixed priority order. -/
def providerTable : List Provider :=
  [⟨"openai", "OPENAI_API_KEY", none, "gpt-4o-mini"⟩,
   ⟨"groq", "GROQ_API_KEY", some "https://api.groq.com/openai/v1", "llama-3.1-8b-instant"⟩,
   ⟨"gemini", "GEMINI_API_KEY",
     some "https://generativelanguage.googleapis.com/v1beta/openai/", "gemini-1.5-flash"⟩,
   ⟨"deepseek", "DEEPSEEK_API_KEY", some "https://api.deepseek.com/v1", "deepseek-chat"⟩]

/-- `response.choices[0]` of a successful completion call:
`finish_reason` together with the assistant message (content and tool
calls). -/
structure Resp where
  finishReason : String
  content : String
  toolCalls : List ToolCallReq
deriving DecidableEq

/-- Behaviour of `client.chat.completions.create` inside the
`try`/`except`: given the provider descriptor, the api key the client
was built with, and the current transcript, `some r` is a returned
response and `none` is a raised exception (caught by the `except`
branch, which falls through to the next provider). -/
def Attempt := Provider → String → List ChatMsg → Option Resp

/-- The provider `for` loop of one `while` iteration of `Me.chat`
(app.py lines 162-187): skip a provider whose credential is falsy,
otherwise attempt it; the first response returned breaks the loop, and
`none` means the loop fell off the end with `response` still `None`. -/
def scanProviders (env : Env) (att : Attempt) (msgs : List ChatMsg) :
    List Provider → Option Resp
  | [] => none
  | p :: rest =>
    match env p.envVar with
    | none => scanProviders env att msgs rest
    | some apiKey =>
      if apiKey == "" then scanProviders env att msgs rest
      else
        match att p apiKey msgs with
        | some r => some r
        | none => scanProviders env att msgs rest

/-- The names of the providers on which the scan actually issues a
completion request (credential truthy), up to and including the first
success. -/
def consulted (env : Env) (att : Attempt) (msgs : List ChatMsg) :
    List Provider → List String
  | [] => []
  | p :: rest =>
    match env p.envVar with
    | none => consulted env att msgs rest
    | some apiKey =>
      if apiKey == "" then consulted env att msgs rest
      else
        match att p apiKey msgs with
        | some _ => [p.name]
        | none => p.name :: consulted env att msgs rest

/-- Outcome of one `Me.chat` invocation. -/
inductive ChatResult where
  /-- A normal `return`: either `response.choices[0].message.content` or
  `OUT_OF_TOKENS_MESSAGE`. -/
  | ok (text : String)
  /-- An uncaught exception propagating out of `chat`. -/
  | exn (e : String)
  /-- The `while` loop still running when the step budget of the model
  runs out (the code has no iteration cap). -/
  | fuelOut
deriving DecidableEq

/-- Observables of a (possibly truncated) run of the `while` loop. -/
structure LoopOut where
  /-- The outcome. -/
  result : ChatResult
  /-- The value of `messages` when the loop stops. -/
  finalMsgs : List ChatMsg
  /-- Notifications dispatched during the run, in order. -/
  sent : List PushMsg
  /-- For each executed `while` iteration, the names of the providers
  consulted by its scan. -/
  trace : List (List String)

/-- The `while not done` loop of `Me.chat` (app.py lines 157-202),
instrumented with the consulted-provider trace and the dispatched
notifications, and run on a fuel budget since the code has no iteration
cap.  Each iteration scans the full `providerTable` from the top; on
`finish_reason == "tool_calls"` the assistant message and the tool
results are appended and the loop repeats; otherwise the content is
returned.  When no provider succeeds, `OUT_OF_TOKENS_MESSAGE` is
returned. -/
def chatLoop (env : Env) (att : Attempt) (postRaises : String → Bool) :
    Nat → List ChatMsg → LoopOut
  | 0, msgs => ⟨ChatResult.fuelOut, msgs, [], []⟩
  | fuel + 1, msgs =>
    let cons := consulted env att msgs providerTable
    match scanProviders env att msgs providerTable with
    | none => ⟨ChatResult.ok OUT_OF_TOKENS_MESSAGE, msgs, [], [cons]⟩
    | some resp =>
      if resp.finishReason == "tool_calls" then
        match handle_tool_call env postRaises resp.toolCalls with
        | Except.error e => ⟨ChatResult.exn e, msgs, [], [cons]⟩
        | Except.ok (results, sent) =>
          let out := chatLoop env att postRaises fuel
            (msgs ++ ChatMsg.assistant resp.content resp.toolCalls :: results)
          ⟨out.result, out.finalMsgs, sent ++ out.sent, cons :: out.trace⟩
      else ⟨ChatResult.ok resp.content, msgs, [], [cons]⟩

/-- The transcript `Me.chat` builds before entering its loop (app.py
line 155): a fresh list holding the system message, then the
caller-supplied history, then the new user message.  The system prompt
text is `self.system_prompt()`, passed here as a parameter since it is
assembled from persona files outside the modelled core. -/
def initialMessages (systemPrompt : String) (message : String)
    (history : List ChatMsg) : List ChatMsg :=
  ChatMsg.system systemPrompt :: history ++ [ChatMsg.user message]

/-- `Me.chat(message, history)` (app.py lines 154-202). -/
def chat (env : Env) (att : Attempt) (postRaises : String → Bool)
    (fuel : Nat) (systemPrompt : String) (message : String)
    (history : List ChatMsg) : LoopOut :=
  chatLoop env att postRaises fuel (initialMessages systemPrompt message history)

/-- `record_user_details_json` (app.py lines 71-94), the advertised
schema. -/
def record_user_details_json : Json :=
  Json.obj
    [("name", Json.str "record_user_details"),
     ("description", Json.str
       "Use this tool to record that a user is interested in being in touch and provided an email address"),
     ("parameters", Json.obj
       [("type", Json.str "object"),
        ("properties", Json.obj
          [("email", Json.obj
             [("type", Json.str "string"),
              ("description", Json.str "The email address of this user")]),
           ("name", Json.obj
             [("type", Json.str "string"),
              ("description", Json.str "The user\x27s name, if they provided it")]),
           ("notes", Json.obj
             [("type", Json.str "string"),
              ("description", Json.str
                "Any additional information about the conversation that\x27s worth recording to give context")])]),
        ("required", Json.arr [Json.str "email"]),
        ("additionalProperties", Json.bool false)])]

/-- `record_unknown_question_json` (app.py lines 96-110). -/
def record_unknown_question_json : Json :=
  Json.obj
    [("name", Json.str "record_unknown_question"),
     ("description", Json.str
       "Always use this tool to record any question that couldn\x27t be answered as you didn\x27t know the answer"),
     ("parameters", Json.obj
       [("type", Json.str "object"),
        ("properties", Json.obj
          [("question", Json.obj
             [("type", Json.str "string"),
              ("description", Json.str "The question that couldn\x27t be answered")])]),
        ("required", Json.arr [Json.str "question"]),
        ("additionalProperties", Json.bool false)])]

/-- `tools` (app.py lines 112-113): the closed list of advertised tool
schemas sent with every completion request. -/
def tools : List Json :=
  [Json.obj [("type", Json.str "function"), ("function", record_user_details_json)],
   Json.obj [("type", Json.str "function"), ("function", record_unknown_question_json)]]

/-- The `name` field of an advertised tool schema. -/
def advertisedName : Json → Option String
  | Json.obj fields =>
    match fields.find? (fun kv => kv.1 == "function") with
    | some (_, Json.obj inner) =>
      match inner.find? (fun kv => kv.1 == "name") with
      | some (_, Json.str s) => some s
      | _ => none
    | _ => none
  | _ => none

/-- The tool names the closed registry `tools` advertises. -/
def advertisedToolNames : List String := tools.filterMap advertisedName

/-! ## Helper lemmas -/

/-- Unfolding of `chatLoop` at zero fuel. -/
theorem chatLoop_zero (env : Env) (att : Attempt) (postRaises : String → Bool)
    (msgs : List ChatMsg) :
    chatLoop env att postRaises 0 msgs = ⟨ChatResult.fuelOut, msgs, [], []⟩ := rfl

/-- Unfolding of `chatLoop` at positive fuel: one `while` iteration. -/
theorem chatLoop_succ (env : Env) (att : Attempt) (postRaises : String → Bool)
    (fuel : Nat) (msgs : List ChatMsg) :
    chatLoop env att postRaises (fuel + 1) msgs =
      match scanProviders env att msgs providerTable with
      | none => ⟨ChatResult.ok OUT_OF_TOKENS_MESSAGE, msgs, [],
          [consulted env att msgs providerTable]⟩
      | some resp =>
        if resp.finishReason == "tool_calls" then
          match handle_tool_call env postRaises resp.toolCalls with
          | Except.error e => ⟨ChatResult.exn e, msgs, [],
              [consulted env att msgs providerTable]⟩
          | Except.ok (results, sent) =>
            let out := chatLoop env att postRaises fuel
              (msgs ++ ChatMsg.assistant resp.content resp.toolCalls :: results)
            ⟨out.result, out.finalMsgs, sent ++ out.sent,
              consulted env att msgs providerTable :: out.trace⟩
        else ⟨ChatResult.ok resp.content, msgs, [],
          [consulted env att msgs providerTable]⟩ := rfl

/-- The scan returns the response of the first provider, in list order,
whose credential is truthy and whose attempt succeeds. -/
theorem scanProviders_first_success (env : Env) (att : Attempt) (msgs : List ChatMsg)
    (l₁ l₂ : List Provider) (p : Provider) (key : String) (r : Resp)
    (hfail : ∀ q ∈ l₁, ∀ k, env q.envVar = some k → k ≠ "" → att q k msgs = none)
    (hkey : env p.envVar = some key) (hne : key ≠ "") (hsucc : att p key msgs = some r) :
    scanProviders env att msgs (l₁ ++ p :: l₂) = some r := by
  induction l₁ with
  | nil =>
    have hbeq : (key == "") = false := by simpa using hne
    simp [scanProviders, hkey, hbeq, hsucc]
  | cons q l₁ ih =>
    have hq := hfail q (by simp)
    have ih' := ih (fun q' hq' => hfail q' (by simp [hq']))
    cases henv : env q.envVar with
    | none => simpa [scanProviders, henv] using ih'
    | some k =>
      by_cases hk : k = ""
      · subst hk; simpa [scanProviders, henv] using ih'
      · have hbeq : (k == "") = false := by simpa using hk
        simpa [scanProviders, henv, hbeq, hq k henv hk] using ih'

/-- The providers consulted by such a scan: every credential-truthy
provider before the winner, then the winner, and nothing after it. -/
theorem consulted_first_success (env : Env) (att : Attempt) (msgs : List ChatMsg)
    (l₁ l₂ : List Provider) (p : Provider) (key : String) (r : Resp)
    (hfail : ∀ q ∈ l₁, ∀ k, env q.envVar = some k → k ≠ "" → att q k msgs = none)
    (hkey : env p.envVar = some key) (hne : key ≠ "") (hsucc : att p key msgs = some r) :
    consulted env att msgs (l₁ ++ p :: l₂) =
      (l₁.filter (fun q => credTruthy (env q.envVar))).map Provider.name ++ [p.name] := by
  induction l₁ with
  | nil =>
    have hbeq : (key == "") = false := by simpa using hne
    simp [consulted, hkey, hbeq, hsucc]
  | cons q l₁ ih =>
    have hq := hfail q (by simp)
    have ih' := ih (fun q' hq' => hfail q' (by simp [hq']))
    cases henv : env q.envVar with
    | none => simpa [consulted, credTruthy, henv] using ih'
    | some k =>
      by_cases hk : k = ""
      · subst hk; simpa [consulted, credTruthy, henv] using ih'
      · have hbeq : (k == "") = false := by simpa using hk
        simpa [consulted, credTruthy, henv, hbeq, hq k henv hk] using ih'

/-- The transcript only ever grows: whatever the providers and tools do,
the final `messages` list extends the one the loop started from. -/
theorem chatLoop_finalMsgs_extends (env : Env) (att : Attempt)
    (postRaises : String → Bool) :
    ∀ (fuel : Nat) (msgs : List ChatMsg),
      ∃ suffix, (chatLoop env att postRaises fuel msgs).finalMsgs = msgs ++ suffix := by
  intro fuel
  induction fuel with
  | zero => intro msgs; exact ⟨[], by simp [chatLoop_zero]⟩
  | succ fuel ih =>
    intro msgs
    cases hscan : scanProviders env att msgs providerTable with
    | none => exact ⟨[], by simp [chatLoop_succ, hscan]⟩
    | some resp =>
      by_cases hfin : (resp.finishReason == "tool_calls") = true
      · cases hh : handle_tool_call env postRaises resp.toolCalls with
        | error e => exact ⟨[], by simp [chatLoop_succ, hscan, hfin, hh]⟩
        | ok out =>
          obtain ⟨results, sent⟩ := out
          obtain ⟨suffix, hsuf⟩ :=
            ih (msgs ++ ChatMsg.assistant resp.content resp.toolCalls :: results)
          refine ⟨ChatMsg.assistant resp.content resp.toolCalls :: results ++ suffix, ?_⟩
          simp [chatLoop_succ, hscan, hfin, hh, hsuf]
      · exact ⟨[], by simp [chatLoop_succ, hscan, hfin]⟩

/-- When every credentialed provider of the list fails, the scan falls
off the end with `response` still `None`. -/
theorem scanProviders_all_fail (env : Env) (att : Attempt) (msgs : List ChatMsg) :
    ∀ l : List Provider,
      (∀ p ∈ l, ∀ k, env p.envVar = some k → k ≠ "" → att p k msgs = none) →
      scanProviders env att msgs l = none := by
  intro l
  induction l with
  | nil => intro _; rfl
  | cons q rest ih =>
    intro hfail
    have hq := hfail q (by simp)
    have ih' := ih (fun q' hq' => hfail q' (by simp [hq']))
    cases henv : env q.envVar with
    | none => simpa [scanProviders, henv] using ih'
    | some k =>
      by_cases hk : k = ""
      · subst hk; simpa [scanProviders, henv] using ih'
      · have hbeq : (k == "") = false := by simpa using hk
        simpa [scanProviders, henv, hbeq, hq k henv hk] using ih'

/-- A successful pass of `handle_tool_call` yields one tool message per
request, in request order, each tagged with the id of its request. -/
theorem handle_tool_call_ok_shape (env : Env) (postRaises : String → Bool) :
    ∀ (tcs : List ToolCallReq) (results : List ChatMsg) (sent : List PushMsg),
      handle_tool_call env postRaises tcs = Except.ok (results, sent) →
      results.length = tcs.length ∧
      ∀ pr ∈ tcs.zip results, ∃ c, pr.2 = ChatMsg.tool c pr.1.id := by
  intro tcs
  induction tcs with
  | nil =>
    intro results sent h
    simp [handle_tool_call] at h
    simp [h.1]
  | cons tc rest ih =>
    intro results sent h
    cases hd : dispatchTool env postRaises tc.fname tc.arguments with
    | error e => simp [handle_tool_call, hd] at h
    | ok out =>
      obtain ⟨result, sent1⟩ := out
      cases hrest : handle_tool_call env postRaises rest with
      | error e => simp [handle_tool_call, hd, hrest] at h
      | ok out2 =>
        obtain ⟨msgs2, sent2⟩ := out2
        simp [handle_tool_call, hd, hrest] at h
        obtain ⟨hres, _⟩ := h
        obtain ⟨hlen, hall⟩ := ih msgs2 sent2 hrest
        subst hres
        refine ⟨by simp [hlen], ?_⟩
        intro pr hpr
        rw [List.zip_cons_cons] at hpr
        rcases List.mem_cons.mp hpr with h1 | h2
        · subst h1; exact ⟨jsonDumps result, rfl⟩
        · exact hall pr h2

/-- Skipping one falsy entry in the lookup loop of
`get_external_llm_key`. -/
theorem get_key_go_skip (env : Env) (pr v : String) (rest : List (String × String))
    (h : credTruthy (env v) = false) :
    get_external_llm_key.go env ((pr, v) :: rest) = get_external_llm_key.go env rest := by
  cases henv : env v with
  | none => simp [get_external_llm_key.go, henv]
  | some s =>
    rw [henv] at h
    simp only [credTruthy, Bool.not_eq_false'] at h
    simp [get_external_llm_key.go, henv, h]

/-- The lookup loop of `get_external_llm_key` returns the first entry
with a truthy credential. -/
theorem get_key_go_first (env : Env) :
    ∀ (l₁ l₂ : List (String × String)) (pr v key : String),
      (∀ q ∈ l₁, credTruthy (env q.2) = false) →
      env v = some key → key ≠ "" →
      get_external_llm_key.go env (l₁ ++ (pr, v) :: l₂) = Except.ok (pr, key) := by
  intro l₁
  induction l₁ with
  | nil =>
    intro l₂ pr v key _ hkey hne
    have hbeq : (key == "") = false := by simpa using hne
    simp [get_external_llm_key.go, hkey, hbeq]
  | cons q l₁ ih =>
    intro l₂ pr v key hfalsy hkey hne
    obtain ⟨qp, qv⟩ := q
    rw [List.cons_append, get_key_go_skip env qp qv _ (hfalsy (qp, qv) (by simp))]
    exact ih l₂ pr v key (fun q' hq' => hfalsy q' (by simp [hq'])) hkey hne

/-- The lookup loop raises `RuntimeError(OUT_OF_TOKENS_MESSAGE)` when
every entry is falsy. -/
theorem get_key_go_none (env : Env) :
    ∀ l : List (String × String),
      (∀ q ∈ l, credTruthy (env q.2) = false) →
      get_external_llm_key.go env l = Except.error OUT_OF_TOKENS_MESSAGE := by
  intro l
  induction l with
  | nil => intro _; rfl
  | cons q l ih =>
    intro hfalsy
    obtain ⟨qp, qv⟩ := q
    rw [get_key_go_skip env qp qv _ (hfalsy (qp, qv) (by simp))]
    exact ih (fun q' hq' => hfalsy q' (by simp [hq']))

/-- The lookup loop reads only the credential slots of its entries. -/
theorem get_key_go_congr (env env' : Env) :
    ∀ l : List (String × String),
      (∀ q ∈ l, env q.2 = env' q.2) →
      get_external_llm_key.go env l = get_external_llm_key.go env' l := by
  intro l
  induction l with
  | nil => intro _; rfl
  | cons q l ih =>
    intro hagree
    obtain ⟨qp, qv⟩ := q
    have hq : env qv = env' qv := hagree (qp, qv) (by simp)
    have ih' := ih (fun q' hq' => hagree q' (by simp [hq']))
    simp [get_external_llm_key.go, hq, ih']

/-- Within a successful pass of `handle_tool_call`, every request whose
name resolves to no module-level binding is answered by a tool message
whose content is the serialized empty object. -/
theorem handle_tool_call_unknown_entry (env : Env) (postRaises : String → Bool) :
    ∀ (tcs : List ToolCallReq) (results : List ChatMsg) (sent : List PushMsg),
      handle_tool_call env postRaises tcs = Except.ok (results, sent) →
      ∀ pr ∈ tcs.zip results, globalsGet env postRaises pr.1.fname = none →
        pr.2 = ChatMsg.tool (jsonDumps (Json.obj [])) pr.1.id := by
  intro tcs
  induction tcs with
  | nil =>
    intro results sent h pr hpr
    simp at hpr
  | cons tc rest ih =>
    intro results sent h pr hpr hnone
    cases hd : dispatchTool env postRaises tc.fname tc.arguments with
    | error e => simp [handle_tool_call, hd] at h
    | ok out =>
      obtain ⟨result, sent1⟩ := out
      cases hrest : handle_tool_call env postRaises rest with
      | error e => simp [handle_tool_call, hd, hrest] at h
      | ok out2 =>
        obtain ⟨msgs2, sent2⟩ := out2
        simp [handle_tool_call, hd, hrest] at h
        obtain ⟨hres, -⟩ := h
        subst hres
        rw [List.zip_cons_cons] at hpr
        rcases List.mem_cons.mp hpr with h1 | h2
        · subst h1
          simp only at hnone ⊢
          simp only [dispatchTool, hnone] at hd
          simp at hd
          rw [← hd.1]
        · exact ih msgs2 sent2 hrest pr h2 hnone

/-- An exception raised during tool-call processing propagates: the loop
iteration ends in that exception. -/
theorem chatLoop_tool_error (env : Env) (att : Attempt) (postRaises : String → Bool)
    (msgs : List ChatMsg) (fuel : Nat) (r : Resp) (e : String)
    (hscan : scanProviders env att msgs providerTable = some r)
    (hfin : r.finishReason = "tool_calls")
    (hh : handle_tool_call env postRaises r.toolCalls = Except.error e) :
    (chatLoop env att postRaises (fuel + 1) msgs).result = ChatResult.exn e := by
  simp [chatLoop_succ, hscan, hfin, hh]

/-- A dispatch exception on a singleton request list propagates out of
`handle_tool_call`. -/
theorem handle_tool_call_single_error (env : Env) (postRaises : String → Bool)
    (tc : ToolCallReq) (e : String)
    (hd : dispatchTool env postRaises tc.fname tc.arguments = Except.error e) :
    handle_tool_call env postRaises [tc] = Except.error e := by
  simp [handle_tool_call, hd]

/-- A response returned by the scan was returned by some attempt on the
current transcript. -/
theorem scanProviders_some_of (env : Env) (att : Attempt) (msgs : List ChatMsg) :
    ∀ (l : List Provider) (r : Resp), scanProviders env att msgs l = some r →
      ∃ p k, att p k msgs = some r := by
  intro l
  induction l with
  | nil => intro r h; simp [scanProviders] at h
  | cons q rest ih =>
    intro r h
    cases henv : env q.envVar with
    | none =>
      rw [scanProviders, henv] at h
      exact ih r h
    | some k =>
      by_cases hk : (k == "") = true
      · simp only [scanProviders, henv, hk, if_true] at h
        exact ih r h
      · cases hatt : att q k msgs with
        | none =>
          simp [scanProviders, henv, hk, hatt] at h
          exact ih r h
        | some r' =>
          simp [scanProviders, henv, hk, hatt] at h
          exact ⟨q, k, by rw [hatt, h]⟩

/-! ## Concrete fixtures for witnesses and counterexamples -/

/-- An environment with no credential configured. -/
def envEmpty : Env := fun _ => none

/-- An environment with an empty OpenAI slot and a Groq key: the OpenAI
slot is falsy and must be skipped. -/
def envGroqOnly : Env := fun v =>
  if v = "OPENAI_API_KEY" then some ""
  else if v = "GROQ_API_KEY" then some "gk-groq-test"
  else none

/-- An environment with both an OpenAI and a Groq key set. -/
def envBoth : Env := fun v =>
  if v = "OPENAI_API_KEY" then some "sk-openai-test"
  else if v = "GROQ_API_KEY" then some "gk-groq-test"
  else none

/-- Attempt behaviour under which OpenAI raises and Groq returns a plain
text answer. -/
def attOpenAIFails : Attempt := fun p _ _ =>
  if p.name = "groq" then some ⟨"stop", "hello from groq", []⟩ else none

/-- Attempt behaviour under which every request raises. -/
def attNoneSucceeds : Attempt := fun _ _ _ => none

/-- Attempt behaviour that always returns a single `record_user_details`
tool call carrying no arguments (the required `email` is missing). -/
def attMalformedToolCall : Attempt := fun _ _ _ =>
  some ⟨"tool_calls", "", [⟨"call_1", "record_user_details", []⟩]⟩

/-- Attempt behaviour that always returns a single
`record_unknown_question` tool call carrying no arguments. -/
def attMalformedQuestionCall : Attempt := fun _ _ _ =>
  some ⟨"tool_calls", "", [⟨"call_9", "record_unknown_question", []⟩]⟩

/-- Attempt behaviour that returns one well-formed `record_user_details`
tool call, then (once the transcript has grown) a plain text answer. -/
def attEmailThenText : Attempt := fun _ _ msgs =>
  if msgs.length ≤ 3 then
    some ⟨"tool_calls", "",
      [⟨"call_2", "record_user_details", [("email", "a@b.com")]⟩]⟩
  else some ⟨"stop", "Thanks, I will be in touch!", []⟩

/-- Attempt behaviour that always returns a single tool call whose name
is the non-callable module binding `tools`. -/
def attValueGlobalCall : Attempt := fun _ _ _ =>
  some ⟨"tool_calls", "", [⟨"call_7", "tools", []⟩]⟩

/-- A notification transport that never raises. -/
def postNeverRaises : String → Bool := fun _ => false

/-- A notification transport that always raises. -/
def postAlwaysRaises : String → Bool := fun _ => true

/-! ## Claim theorems -/

/-- **C2**: whenever no provider attempt succeeds in a step — because no
credential is configured or because every credentialed attempt raised —
`chat` returns exactly the fixed unavailable message; the scan is
exhausted precisely under those conditions; the provider-resolution
function signals none-available with the very same literal; and the
literal is the fixed byte string spelled out. -/
theorem chat_unavailable_message_fixed (env : Env) (att : Attempt)
    (postRaises : String → Bool) (fuel : Nat) (msgs : List ChatMsg) :
    (scanProviders env att msgs providerTable = none →
      (chatLoop env att postRaises (fuel + 1) msgs).result
        = ChatResult.ok OUT_OF_TOKENS_MESSAGE) ∧
    ((∀ p ∈ providerTable, ∀ k, env p.envVar = some k → k ≠ "" → att p k msgs = none) →
      scanProviders env att msgs providerTable = none) ∧
    ((∀ pr ∈ provider_env_map, credTruthy (env pr.2) = false) →
      get_external_llm_key env = Except.error OUT_OF_TOKENS_MESSAGE) ∧
    OUT_OF_TOKENS_MESSAGE =
      "We are currently unable to process your request because your token allocation appears to be exhausted across all supported providers (OpenAI, Groq, Gemini, and DeepSeek). Please review your usage limits or update your billing details before trying again." := by
  refine ⟨fun h => by simp [chatLoop_succ, h],
    scanProviders_all_fail env att msgs providerTable,
    fun h => get_key_go_none env provider_env_map h, rfl⟩

/-- Witness for C2: with no credential configured and a step budget of
one iteration, `chat` on an empty history returns the fixed message, and
`get_external_llm_key` signals none-available with the same literal. -/
theorem chat_unavailable_message_fixed_witness :
    (chatLoop envEmpty attNoneSucceeds postNeverRaises 1
        (initialMessages "sys" "What is your hourly rate?" [])).result
      = ChatResult.ok OUT_OF_TOKENS_MESSAGE ∧
    get_external_llm_key envEmpty = Except.error OUT_OF_TOKENS_MESSAGE :=
  ⟨(chat_unavailable_message_fixed envEmpty attNoneSucceeds postNeverRaises 0
      (initialMessages "sys" "What is your hourly rate?" [])).1 rfl,
   (chat_unavailable_message_fixed envEmpty attNoneSucceeds postNeverRaises 0 []).2.2.1
      (by decide)⟩

/-- **C8**: `get_external_llm_key` inspects providers in the fixed
priority order openai, groq, gemini, deepseek; returns the first whose
credential slot is truthy; treats an empty or absent slot as a skip,
not an error; signals none-available (its `RuntimeError`) when no slot
is truthy; and depends on nothing but the four credential slots of the
environment — it performs no network call and has no side effect. -/
theorem get_external_llm_key_first_credentialed (env : Env) :
    (∀ (l₁ l₂ : List (String × String)) (pr v key : String),
      provider_env_map = l₁ ++ (pr, v) :: l₂ →
      (∀ q ∈ l₁, credTruthy (env q.2) = false) →
      env v = some key → key ≠ "" →
      get_external_llm_key env = Except.ok (pr, key)) ∧
    ((∀ q ∈ provider_env_map, credTruthy (env q.2) = false) →
      get_external_llm_key env = Except.error OUT_OF_TOKENS_MESSAGE) ∧
    (∀ env' : Env, (∀ q ∈ provider_env_map, env q.2 = env' q.2) →
      get_external_llm_key env = get_external_llm_key env') ∧
    provider_env_map =
      [("openai", "OPENAI_API_KEY"), ("groq", "GROQ_API_KEY"),
       ("gemini", "GEMINI_API_KEY"), ("deepseek", "DEEPSEEK_API_KEY")] := by
  refine ⟨?_, fun h => get_key_go_none env provider_env_map h,
    fun env' h => get_key_go_congr env env' provider_env_map h, rfl⟩
  intro l₁ l₂ pr v key hmap hfalsy hkey hne
  show get_external_llm_key.go env provider_env_map = _
  rw [hmap]
  exact get_key_go_first env l₁ l₂ pr v key hfalsy hkey hne

/-- **C1**: in every `AWAITING_RESPONSE` step the providers openai,
groq, gemini, deepseek are attempted in that fixed order; a provider
whose credential slot is absent (or empty) is skipped; the first
successful attempt ends the scan and no provider below it is consulted
in that step; and after tool-call processing the next step re-runs the
full scan from the top of the provider table on the extended
transcript. -/
theorem chat_provider_priority_scan (env : Env) (att : Attempt)
    (postRaises : String → Bool) (msgs : List ChatMsg)
    (l₁ l₂ : List Provider) (p : Provider) (key : String) (r : Resp)
    (hsplit : providerTable = l₁ ++ p :: l₂)
    (hfail : ∀ q ∈ l₁, ∀ k, env q.envVar = some k → k ≠ "" → att q k msgs = none)
    (hkey : env p.envVar = some key) (hne : key ≠ "") (hsucc : att p key msgs = some r) :
    scanProviders env att msgs providerTable = some r ∧
    consulted env att msgs providerTable
      = (l₁.filter (fun q => credTruthy (env q.envVar))).map Provider.name ++ [p.name] ∧
    (∀ q ∈ l₂, q.name ∉ consulted env att msgs providerTable) ∧
    (∀ fuel, (chatLoop env att postRaises (fuel + 1) msgs).trace.head?
      = some (consulted env att msgs providerTable)) ∧
    (∀ fuel results sent, r.finishReason = "tool_calls" →
      handle_tool_call env postRaises r.toolCalls = Except.ok (results, sent) →
      (chatLoop env att postRaises (fuel + 1 + 1) msgs).trace
        = consulted env att msgs providerTable
          :: (chatLoop env att postRaises (fuel + 1)
                (msgs ++ ChatMsg.assistant r.content r.toolCalls :: results)).trace) := by
  have hs : scanProviders env att msgs providerTable = some r := by
    rw [hsplit]; exact scanProviders_first_success env att msgs l₁ l₂ p key r hfail hkey hne hsucc
  have hc : consulted env att msgs providerTable
      = (l₁.filter (fun q => credTruthy (env q.envVar))).map Provider.name ++ [p.name] := by
    rw [hsplit]; exact consulted_first_success env att msgs l₁ l₂ p key r hfail hkey hne hsucc
  have hnd : (providerTable.map Provider.name).Nodup := by decide
  refine ⟨hs, hc, ?_, ?_, ?_⟩
  · intro q hq hmem
    rw [hsplit] at hnd
    rw [List.map_append, List.map_cons, List.nodup_append] at hnd
    obtain ⟨-, hnd₂, hdisj⟩ := hnd
    have hqn : q.name ∈ l₂.map Provider.name := List.mem_map_of_mem Provider.name hq
    rw [hc] at hmem
    rcases List.mem_append.mp hmem with hleft | hright
    · obtain ⟨q', hq', hq'n⟩ := List.mem_map.mp hleft
      have : q'.name ∈ l₁.map Provider.name :=
        List.mem_map_of_mem Provider.name (List.mem_of_mem_filter hq')
      exact hdisj this (by rw [hq'n]; exact List.mem_cons_of_mem _ hqn)
    · have hqp : q.name = p.name := by simpa using hright
      have : p.name ∉ l₂.map Provider.name := (List.nodup_cons.mp hnd₂).1
      exact this (hqp ▸ hqn)
  · intro fuel
    by_cases hfin : (r.finishReason == "tool_calls") = true
    · cases hh : handle_tool_call env postRaises r.toolCalls with
      | error e => simp [chatLoop_succ, hs, hfin, hh]
      | ok out =>
        obtain ⟨results, sent⟩ := out
        simp [chatLoop_succ, hs, hfin, hh]
    · simp [chatLoop_succ, hs, hfin]
  · intro fuel results sent hfin hh
    simp [chatLoop_succ, hs, hfin, hh]

/-- Witness for C1: with an OpenAI key that fails and a Groq key that
answers, the scan consults openai then groq and stops: gemini is never
consulted. -/
theorem chat_provider_priority_scan_witness :
    scanProviders envBoth attOpenAIFails [] providerTable
      = some ⟨"stop", "hello from groq", []⟩ ∧
    consulted envBoth attOpenAIFails [] providerTable = ["openai", "groq"] ∧
    "gemini" ∉ consulted envBoth attOpenAIFails [] providerTable := by
  have h := chat_provider_priority_scan envBoth attOpenAIFails postNeverRaises []
    [⟨"openai", "OPENAI_API_KEY", none, "gpt-4o-mini"⟩]
    [⟨"gemini", "GEMINI_API_KEY",
       some "https://generativelanguage.googleapis.com/v1beta/openai/", "gemini-1.5-flash"⟩,
     ⟨"deepseek", "DEEPSEEK_API_KEY", some "https://api.deepseek.com/v1", "deepseek-chat"⟩]
    ⟨"groq", "GROQ_API_KEY", some "https://api.groq.com/openai/v1", "llama-3.1-8b-instant"⟩
    "gk-groq-test" ⟨"stop", "hello from groq", []⟩ rfl
    (by intro q hq k _ _; simp at hq; subst hq; rfl) rfl (by decide) rfl
  exact ⟨h.1, h.2.1.trans (by decide),
    h.2.2.1 ⟨"gemini", "GEMINI_API_KEY",
      some "https://generativelanguage.googleapis.com/v1beta/openai/", "gemini-1.5-flash"⟩
      (by simp)⟩

/-- Witness for C8: with the OpenAI slot set but empty and a Groq key
present, resolution skips openai and returns the groq key. -/
theorem get_external_llm_key_first_credentialed_witness :
    get_external_llm_key envGroqOnly = Except.ok ("groq", "gk-groq-test") :=
  (get_external_llm_key_first_credentialed envGroqOnly).1
    [("openai", "OPENAI_API_KEY")]
    [("gemini", "GEMINI_API_KEY"), ("deepseek", "DEEPSEEK_API_KEY")]
    "groq" "GROQ_API_KEY" "gk-groq-test" rfl (by decide) rfl (by decide)

/-- Counterexample to C3 as stated: an assistant response carrying one
Tool Call Request whose invocation raises (the required `email` is
missing) appends no message at all — the transcript is unchanged and
the turn aborts — so processing does not append one tool message per
request for every assistant response. -/
theorem handle_tool_call_abort_counterexample :
    handle_tool_call envBoth postNeverRaises [⟨"call_1", "record_user_details", []⟩]
      = Except.error "TypeError: record_user_details missing required argument: email" ∧
    (chat envBoth attMalformedToolCall postNeverRaises 2 "sys" "hi" []).finalMsgs
      = initialMessages "sys" "hi" [] ∧
    (chat envBoth attMalformedToolCall postNeverRaises 2 "sys" "hi" []).result
      = ChatResult.exn "TypeError: record_user_details missing required argument: email" :=
  ⟨rfl, rfl, rfl⟩

/-- **C3 (amended)**: for every assistant response carrying N Tool Call
Requests all of whose invocations return normally, processing appends
the assistant message followed by exactly N tool messages, one per
request, in the provider's request order, each tagged with the id of
the request it answers; the transcript is only ever extended within the
turn.  (If an invocation raises, the turn aborts with nothing
appended — see the counterexample.) -/
theorem handle_tool_call_appends_results (env : Env) (att : Attempt)
    (postRaises : String → Bool) :
    (∀ (tcs : List ToolCallReq) (results : List ChatMsg) (sent : List PushMsg),
      handle_tool_call env postRaises tcs = Except.ok (results, sent) →
      results.length = tcs.length ∧
      ∀ pr ∈ tcs.zip results, ∃ c, pr.2 = ChatMsg.tool c pr.1.id) ∧
    (∀ (msgs : List ChatMsg) (r : Resp) (fuel : Nat)
        (results : List ChatMsg) (sent : List PushMsg),
      scanProviders env att msgs providerTable = some r →
      r.finishReason = "tool_calls" →
      handle_tool_call env postRaises r.toolCalls = Except.ok (results, sent) →
      (chatLoop env att postRaises (fuel + 1) msgs).finalMsgs
        = (chatLoop env att postRaises fuel
            (msgs ++ ChatMsg.assistant r.content r.toolCalls :: results)).finalMsgs) ∧
    (∀ (fuel : Nat) (msgs : List ChatMsg),
      ∃ suffix, (chatLoop env att postRaises fuel msgs).finalMsgs = msgs ++ suffix) := by
  refine ⟨handle_tool_call_ok_shape env postRaises, ?_,
    chatLoop_finalMsgs_extends env att postRaises⟩
  intro msgs r fuel results sent hscan hfin hh
  simp [chatLoop_succ, hscan, hfin, hh]

/-- Witness for the amended C3: one well-formed `record_unknown_question`
request yields exactly one tool message. -/
theorem handle_tool_call_appends_results_witness :
    ([ChatMsg.tool "\x7b\"recorded\": \"ok\"\x7d" "call_1"] : List ChatMsg).length
      = ([⟨"call_1", "record_unknown_question", [("question", "What is 2+2?")]⟩]
          : List ToolCallReq).length :=
  ((handle_tool_call_appends_results envBoth attOpenAIFails postNeverRaises).1
    [⟨"call_1", "record_unknown_question", [("question", "What is 2+2?")]⟩]
    [ChatMsg.tool "\x7b\"recorded\": \"ok\"\x7d" "call_1"]
    [⟨none, none, "Recording What is 2+2?"⟩] rfl).1

/-- **C9**: `chat` never mutates the caller-supplied history: it builds
a fresh turn-local transcript — the system message first, then the
history elements, then the new user message — and every append during
the turn extends that fresh list, the history value remaining embedded
unchanged as its middle segment. -/
theorem chat_history_not_mutated (env : Env) (att : Attempt)
    (postRaises : String → Bool) (fuel : Nat)
    (systemPrompt message : String) (history : List ChatMsg) :
    chat env att postRaises fuel systemPrompt message history
      = chatLoop env att postRaises fuel
          (ChatMsg.system systemPrompt :: history ++ [ChatMsg.user message]) ∧
    ∃ suffix, (chat env att postRaises fuel systemPrompt message history).finalMsgs
      = ChatMsg.system systemPrompt :: history ++ [ChatMsg.user message] ++ suffix := by
  refine ⟨rfl, ?_⟩
  obtain ⟨suffix, h⟩ := chatLoop_finalMsgs_extends env att postRaises fuel
    (initialMessages systemPrompt message history)
  exact ⟨suffix, by simpa [initialMessages] using h⟩

/-- **C10**: a Tool Call Request whose name resolves to no module-level
binding still yields a tool message — the empty JSON object as content,
tagged with the request's call id — so the one-result-per-request
correspondence survives unknown names; and dispatch resolves handlers
among all module-level bindings rather than in the closed `tools`
registry: the unadvertised module function `push` resolves. -/
theorem unknown_tool_name_empty_result (env : Env) (postRaises : String → Bool)
    (nm : String) (args : List (String × String)) :
    (globalsGet env postRaises nm = none →
      dispatchTool env postRaises nm args = Except.ok (Json.obj [], [])) ∧
    jsonDumps (Json.obj []) = "\x7b\x7d" ∧
    (∀ (tcs : List ToolCallReq) (results : List ChatMsg) (sent : List PushMsg),
      handle_tool_call env postRaises tcs = Except.ok (results, sent) →
      ∀ pr ∈ tcs.zip results, globalsGet env postRaises pr.1.fname = none →
        pr.2 = ChatMsg.tool "\x7b\x7d" pr.1.id) ∧
    (globalsGet env postRaises "push").isSome = true ∧
    advertisedToolNames = ["record_user_details", "record_unknown_question"] ∧
    "push" ∉ advertisedToolNames := by
  refine ⟨fun h => by simp [dispatchTool, h], rfl, ?_, rfl, by decide, by decide⟩
  intro tcs results sent h pr hpr hnone
  exact handle_tool_call_unknown_entry env postRaises tcs results sent h pr hpr hnone

/-- Witness for C10: the unknown name `frobnicate` dispatches to the
empty JSON object. -/
theorem unknown_tool_name_empty_result_witness :
    dispatchTool envBoth postNeverRaises "frobnicate" [("x", "1")]
      = Except.ok (Json.obj [], []) :=
  (unknown_tool_name_empty_result envBoth postNeverRaises "frobnicate" [("x", "1")]).1 rfl

/-- `sub` occurs as a contiguous substring of `s`. -/
def ContainsStr (s sub : String) : Prop := ∃ a b, s = a ++ sub ++ b

/-- Counterexample to C4 as stated: malformed tool arguments — an
unknown keyword, or a missing required field — raise `TypeError`
instead of yielding an empty result, and the turn aborts instead of
continuing to a `DONE` or `EXHAUSTED` outcome. -/
theorem malformed_tool_args_counterexample :
    dispatchTool envBoth postNeverRaises "record_user_details"
        [("email", "a@b.com"), ("phone", "555")]
      = Except.error "TypeError: record_user_details got an unexpected keyword argument" ∧
    dispatchTool envBoth postNeverRaises "record_user_details" []
      = Except.error "TypeError: record_user_details missing required argument: email" ∧
    (chat envBoth attMalformedQuestionCall postNeverRaises 2 "sys" "hi" []).result
      = ChatResult.exn "TypeError: record_unknown_question missing required argument: question" :=
  ⟨rfl, rfl, rfl⟩

/-- **C4 (amended)**: a tool invocation with malformed arguments (an
unknown keyword, or the required `email` of `record_user_details`
missing) raises `TypeError`, and the exception propagates through
tool-call handling into the chat loop, aborting the turn; only an
unresolved tool name is treated as an empty result. -/
theorem malformed_tool_args_raise (env : Env) (att : Attempt)
    (postRaises : String → Bool) (args : List (String × String)) :
    (args.any (fun kv => !(kv.1 == "email") && !(kv.1 == "name") && !(kv.1 == "notes")) = false →
      kwLookup args "email" = none →
      dispatchTool env postRaises "record_user_details" args
        = Except.error "TypeError: record_user_details missing required argument: email") ∧
    (args.any (fun kv => !(kv.1 == "email") && !(kv.1 == "name") && !(kv.1 == "notes")) = true →
      dispatchTool env postRaises "record_user_details" args
        = Except.error "TypeError: record_user_details got an unexpected keyword argument") ∧
    (∀ (msgs : List ChatMsg) (fuel : Nat) (r : Resp) (cid e : String),
      scanProviders env att msgs providerTable = some r →
      r.finishReason = "tool_calls" →
      r.toolCalls = [⟨cid, "record_user_details", args⟩] →
      dispatchTool env postRaises "record_user_details" args = Except.error e →
      (chatLoop env att postRaises (fuel + 1) msgs).result = ChatResult.exn e) := by
  have hdef : dispatchTool env postRaises "record_user_details" args
      = callRecordUserDetails env postRaises args := rfl
  refine ⟨?_, ?_, ?_⟩
  · intro hany hmiss
    rw [hdef]
    simp [callRecordUserDetails, hany, hmiss]
  · intro hany
    rw [hdef]
    simp [callRecordUserDetails, hany]
  · intro msgs fuel r cid e hscan hfin htc hdisp
    refine chatLoop_tool_error env att postRaises msgs fuel r e hscan hfin ?_
    rw [htc]
    exact handle_tool_call_single_error env postRaises _ e hdisp

/-- Witness for the amended C4: an empty argument dict for
`record_user_details` raises the missing-`email` `TypeError`. -/
theorem malformed_tool_args_raise_witness :
    dispatchTool envBoth postNeverRaises "record_user_details" []
      = Except.error "TypeError: record_user_details missing required argument: email" :=
  (malformed_tool_args_raise envBoth attMalformedToolCall postNeverRaises []).1 rfl rfl

/-- Counterexample to C5 as stated: with a notifier that raises, a
well-formed `record_user_details` tool call aborts the whole turn —
the push failure propagates into the chat loop rather than being
fire-and-forget. -/
theorem notifier_failure_aborts_counterexample :
    push envBoth postAlwaysRaises "hello" = Except.error "requests exception in push" ∧
    (chat envBoth attEmailThenText postAlwaysRaises 3 "sys" "my email is a@b.com" []).result
      = ChatResult.exn "requests exception in push" :=
  ⟨rfl, rfl⟩

/-- **C5 (amended)**: notification dispatch is synchronous and failures
are not contained: an exception of the notifier propagates out of
`push`, out of the tool implementation, and into the chat loop,
aborting the turn. -/
theorem notifier_failure_propagates (env : Env) (att : Attempt)
    (postRaises : String → Bool) (text email name notes : String) :
    (postRaises text = true →
      push env postRaises text = Except.error "requests exception in push") ∧
    (postRaises ("Recording " ++ name ++ " with email " ++ email ++ " and notes " ++ notes) = true →
      record_user_details env postRaises email name notes
        = Except.error "requests exception in push") ∧
    (callRecordUserDetails env postRaises [("email", email)]
      = record_user_details env postRaises email "Name not provided" "not provided") ∧
    (∀ (msgs : List ChatMsg) (fuel : Nat) (r : Resp) (cid e : String),
      scanProviders env att msgs providerTable = some r →
      r.finishReason = "tool_calls" →
      r.toolCalls = [⟨cid, "record_user_details", [("email", email)]⟩] →
      dispatchTool env postRaises "record_user_details" [("email", email)]
        = Except.error e →
      (chatLoop env att postRaises (fuel + 1) msgs).result = ChatResult.exn e) := by
  refine ⟨?_, ?_, rfl, ?_⟩
  · intro h
    simp [push, h]
  · intro h
    simp [record_user_details, push, h]
  · intro msgs fuel r cid e hscan hfin htc hdisp
    refine chatLoop_tool_error env att postRaises msgs fuel r e hscan hfin ?_
    rw [htc]
    exact handle_tool_call_single_error env postRaises _ e hdisp

/-- Witness for the amended C5: a raising notifier turns a well-formed
`record_user_details` call into a propagating exception. -/
theorem notifier_failure_propagates_witness :
    record_user_details envBoth postAlwaysRaises "a@b.com" "Ada" "n/a"
      = Except.error "requests exception in push" :=
  (notifier_failure_propagates envBoth attEmailThenText postAlwaysRaises
    "ping" "a@b.com" "Ada" "n/a").2.1 rfl

/-- Counterexample to C6 as stated: a provider response can name the
non-callable module binding `tools` as a tool; calling it raises
`TypeError`, which propagates out of `chat` — so `chat` does not return
a normal reply or the fixed message for every provider behaviour. -/
theorem chat_raises_counterexample :
    (chat envBoth attValueGlobalCall postNeverRaises 2 "sys" "hi" []).result
      = ChatResult.exn "TypeError: object is not callable" :=
  rfl

/-- **C6 (amended)**: `chat` never raises on account of provider
failures, and every normal return is either a provider-produced
assistant text or the fixed unavailable message — never raw error
text; but an exception raised while processing a tool call propagates.
Provided every tool-call batch the providers emit processes without
raising, `chat` never raises. -/
theorem chat_no_raise_when_tools_wellformed (env : Env) (att : Attempt)
    (postRaises : String → Bool)
    (htools : ∀ (p : Provider) (k : String) (ms : List ChatMsg) (r : Resp),
      att p k ms = some r → r.finishReason = "tool_calls" →
      ∃ out, handle_tool_call env postRaises r.toolCalls = Except.ok out) :
    ∀ (fuel : Nat) (msgs : List ChatMsg),
      (∀ e, (chatLoop env att postRaises fuel msgs).result ≠ ChatResult.exn e) ∧
      (∀ t, (chatLoop env att postRaises fuel msgs).result = ChatResult.ok t →
        t = OUT_OF_TOKENS_MESSAGE ∨
        ∃ (p : Provider) (k : String) (ms : List ChatMsg) (r : Resp),
          att p k ms = some r ∧ t = r.content) := by
  intro fuel
  induction fuel with
  | zero =>
    intro msgs
    exact ⟨fun e h => by simp [chatLoop_zero] at h,
      fun t h => by simp [chatLoop_zero] at h⟩
  | succ fuel ih =>
    intro msgs
    cases hscan : scanProviders env att msgs providerTable with
    | none =>
      refine ⟨fun e h => ?_, fun t h => ?_⟩
      · simp [chatLoop_succ, hscan] at h
      · simp [chatLoop_succ, hscan] at h
        exact Or.inl h.symm
    | some r =>
      obtain ⟨p, k, hatt⟩ := scanProviders_some_of env att msgs providerTable r hscan
      by_cases hfin : (r.finishReason == "tool_calls") = true
      · obtain ⟨out, hh⟩ := htools p k msgs r hatt (by simpa using hfin)
        obtain ⟨results, sent⟩ := out
        have heq : (chatLoop env att postRaises (fuel + 1) msgs).result
            = (chatLoop env att postRaises fuel
                (msgs ++ ChatMsg.assistant r.content r.toolCalls :: results)).result := by
          simp [chatLoop_succ, hscan, hfin, hh]
        refine ⟨fun e h => ?_, fun t h => ?_⟩
        · exact (ih (msgs ++ ChatMsg.assistant r.content r.toolCalls :: results)).1 e
            (heq ▸ h)
        · exact (ih (msgs ++ ChatMsg.assistant r.content r.toolCalls :: results)).2 t
            (heq ▸ h)
      · refine ⟨fun e h => ?_, fun t h => ?_⟩
        · simp [chatLoop_succ, hscan, hfin] at h
        · simp [chatLoop_succ, hscan, hfin] at h
          exact Or.inr ⟨p, k, msgs, r, hatt, h.symm⟩

/-- Witness for the amended C6: with a text-answering provider the loop
does not raise. -/
theorem chat_no_raise_when_tools_wellformed_witness :
    (chatLoop envBoth attOpenAIFails postNeverRaises 1
        (initialMessages "s" "m" [])).result
      ≠ ChatResult.exn "requests exception in push" :=
  (chat_no_raise_when_tools_wellformed envBoth attOpenAIFails postNeverRaises
    (by
      intro p k ms r hatt hfin
      by_cases hp : p.name = "groq"
      · rw [attOpenAIFails] at hatt
        simp only [hp, if_pos] at hatt
        obtain rfl : r = ⟨"stop", "hello from groq", []⟩ :=
          (Option.some.injEq .. ▸ hatt).symm
        exact absurd hfin (by decide)
      · rw [attOpenAIFails] at hatt
        simp [hp] at hatt)
    1 (initialMessages "s" "m" [])).1 "requests exception in push"

/-- **C7**: `record_user_details`, given its required email (name and
notes defaulting to the declared literals), returns
`{"recorded": "ok"}` and triggers exactly one notification whose text
contains the name, the email, and the notes; `record_unknown_question`,
given its required question, returns `{"recorded": "ok"}` and triggers
exactly one notification whose text contains the question. -/
theorem record_tools_contract (env : Env) (postRaises : String → Bool)
    (email name notes question : String) :
    (postRaises ("Recording " ++ name ++ " with email " ++ email ++ " and notes " ++ notes)
        = false →
      record_user_details env postRaises email name notes
        = Except.ok (Json.obj [("recorded", Json.str "ok")],
            [⟨env "PUSHOVER_TOKEN", env "PUSHOVER_USER",
              "Recording " ++ name ++ " with email " ++ email ++ " and notes " ++ notes⟩]) ∧
      ContainsStr ("Recording " ++ name ++ " with email " ++ email ++ " and notes " ++ notes)
        name ∧
      ContainsStr ("Recording " ++ name ++ " with email " ++ email ++ " and notes " ++ notes)
        email ∧
      ContainsStr ("Recording " ++ name ++ " with email " ++ email ++ " and notes " ++ notes)
        notes) ∧
    (callRecordUserDetails env postRaises [("email", email)]
      = record_user_details env postRaises email "Name not provided" "not provided") ∧
    (postRaises ("Recording " ++ question) = false →
      record_unknown_question env postRaises question
        = Except.ok (Json.obj [("recorded", Json.str "ok")],
            [⟨env "PUSHOVER_TOKEN", env "PUSHOVER_USER", "Recording " ++ question⟩]) ∧
      ContainsStr ("Recording " ++ question) question) ∧
    (callRecordUnknownQuestion env postRaises [("question", question)]
      = record_unknown_question env postRaises question) := by
  refine ⟨?_, rfl, ?_, rfl⟩
  · intro h
    refine ⟨by simp [record_user_details, push, h],
      ⟨"Recording ", " with email " ++ email ++ " and notes " ++ notes,
        by simp [String.append_assoc]⟩,
      ⟨"Recording " ++ name ++ " with email ", " and notes " ++ notes,
        by simp [String.append_assoc]⟩,
      ⟨"Recording " ++ name ++ " with email " ++ email ++ " and notes ", "",
        by simp [String.append_assoc]⟩⟩
  · intro h
    exact ⟨by simp [record_unknown_question, push, h],
      ⟨"Recording ", "", by simp [String.append_assoc]⟩⟩

/-- Witness for C7: a concrete email with the declared defaults records
ok and dispatches exactly the one expected notification. -/
theorem record_tools_contract_witness :
    record_user_details envBoth postNeverRaises "a@b.com" "Name not provided" "not provided"
      = Except.ok (Json.obj [("recorded", Json.str "ok")],
          [⟨none, none,
            "Recording Name not provided with email a@b.com and notes not provided"⟩]) :=
  ((record_tools_contract envBoth postNeverRaises "a@b.com" "Name not provided"
    "not provided" "q").1 rfl).1

end ResumeChatbot
